import Mathlib

/-!
Verification of the CelestixLCD HID protocol driver (src/celestixlcd.py).

Strings are modelled as lists of Unicode code points (`List Nat`), byte
buffers as lists of naturals below 256.  Python `assert` precondition
failures and transport failures are modelled with `Except Err`.
The external `hid` transport and the beep side effect are collaborators
outside the repository; where a claim depends on them they are modelled
from the spec (each such definition says so in its doc comment).
-/

set_option autoImplicit false

namespace CelestixSpec

/-- Error outcomes observable by a caller of the driver. -/
inductive Err where
  /-- A Python `assert` precondition failure (AssertionError). -/
  | invalidArgument
  /-- `hid.enumerate` returned no matching device (RuntimeError in `__init__`). -/
  | deviceNotFound
  /-- Transport operation attempted on a closed handle. -/
  | connectionClosed
  /-- No transport handle is present on the session. -/
  | noDevice
  deriving DecidableEq, Repr

deriving instance DecidableEq for Except

/-- HID report number of the input knob (`kbd_report = b'\x01'`). -/
def kbd_report : Nat := 0x01

/-- HID report number of the alphanumeric LCD (`lcd_report = b'\x02'`). -/
def lcd_report : Nat := 0x02

/-- LCD command to write the LCD text buffer (`cmd_text = b'\x00'`). -/
def cmd_text : Nat := 0x00

/-- LCD command to clear/init the LCD (`cmd_clear = b'\x01'`). -/
def cmd_clear : Nat := 0x01

/-- LCD command to write character memory (`cmd_char = b'\x03'`). -/
def cmd_char : Nat := 0x03

/-- One code point under Python's `encode('iso-8859-1', 'replace')`:
code points below 256 map to themselves (Latin-1), anything else is
replaced by the substitute byte `?` = 0x3F rather than raising. -/
def encodeChar (c : Nat) : Nat :=
  if c < 256 then c else 0x3F

/-- Python `message.encode('iso-8859-1', 'replace')`: one byte per code point. -/
def encodeLatin1Replace (s : List Nat) : List Nat :=
  s.map encodeChar

/-- Embedding of `CelestixLCD.write_line` up to the transport write: the
byte buffer it hands to `self._device.write`, or the `assert` failure.
Mirrors: `message = string[:40]`, `assert 0 <= line <= 1`,
`cursor_pos = 0`, `length = 40`, `endpad = b' ' * (40 - len(message))`,
payload = report ++ cmd ++ cursor ++ line ++ length ++ 3 zero bytes ++
encoded message ++ endpad. -/
def write_line_enc (string : List Nat) (line : Int) : Except Err (List Nat) :=
  let message := string.take 40
  if 0 ≤ line ∧ line ≤ 1 then
    let cursor_pos : Nat := 0
    let length : Nat := 40
    let endpad : List Nat := List.replicate (40 - message.length) 0x20
    .ok ([lcd_report, cmd_text, cursor_pos, line.toNat, length, 0, 0, 0]
          ++ encodeLatin1Replace message ++ endpad)
  else
    .error .invalidArgument

/-- Embedding of `CelestixLCD.write_string` up to the transport write.
Mirrors: `message = string[:40]`, `assert 0 <= line <= 1`,
`assert 0 <= cursor <= 39`, `length = len(message)`, payload with the
encoded message and no trailing pad. -/
def write_string_enc (string : List Nat) (line cursor : Int) :
    Except Err (List Nat) :=
  let message := string.take 40
  if 0 ≤ line ∧ line ≤ 1 then
    if 0 ≤ cursor ∧ cursor ≤ 39 then
      .ok ([lcd_report, cmd_text, cursor.toNat, line.toNat, message.length, 0, 0, 0]
            ++ encodeLatin1Replace message)
    else
      .error .invalidArgument
  else
    .error .invalidArgument

/-- Embedding of `CelestixLCD.create_char` up to the transport write.
Bitmap rows are bytes (`row.to_bytes(1, 'big')`; the spec glossary:
a bitmap row is one byte), hence `Fin 256`.  Mirrors:
`assert 0 <= location <= 7`, `assert 1 <= len(bitmap) <= 48`,
`startpos = location*8`, `charData` = one byte per row,
`length = len(charData)`. -/
def create_char_enc (location : Int) (bitmap : List (Fin 256)) :
    Except Err (List Nat) :=
  if 0 ≤ location ∧ location ≤ 7 then
    if 1 ≤ bitmap.length ∧ bitmap.length ≤ 48 then
      let startpos : Nat := location.toNat * 8
      let charData : List Nat := bitmap.map Fin.val
      .ok ([lcd_report, cmd_char, startpos, 0x00, charData.length, 0, 0, 0]
            ++ charData)
    else
      .error .invalidArgument
  else
    .error .invalidArgument

/-- Embedding of the buffer built by `CelestixLCD.clear`:
`lcd_report + cmd_clear + bytes(6)`. -/
def clear_command : List Nat :=
  [lcd_report, cmd_clear] ++ List.replicate 6 0

/-- The closed set of semantic key names returned by `CelestixLCD.read`. -/
inductive Key where
  | select
  | right
  | left
  deriving DecidableEq, Repr

/-- The key decoding performed inside `CelestixLCD.read`: the raw bytes
are compared for equality with the three literal reports
`b'\x01\x02\x3A'`, `b'\x01\x02\x3B'`, `b'\x01\x02\x3C'`; any other
value falls to the `else` branch, which prints the bytes and returns
`None` (modelled as `none`). -/
def decode_key (keycode : List Nat) : Option Key :=
  if keycode = [0x01, 0x02, 0x3A] then some .select
  else if keycode = [0x01, 0x02, 0x3B] then some .right
  else if keycode = [0x01, 0x02, 0x3C] then some .left
  else none

/-- One invocation of the external beep collaborator
(`subprocess.call(["/usr/bin/beep", ...])`), recorded as the frequency
and duration arguments passed. -/
structure BeepCmd where
  freq : Nat
  dur : Nat
  deriving DecidableEq, Repr

/-- Embedding of the body of `CelestixLCD.read` after the transport read
delivered `keycode`: the returned value paired with the list of beep
invocations triggered.  Recognized keys beep (1000 Hz / 20 ms for
select, 500 Hz / 10 ms for right and left) only when `beep` is set;
the `else` branch prints the bytes and returns `None` with no beep. -/
def read_model (keycode : List Nat) (beep : Bool) :
    Option Key × List BeepCmd :=
  if keycode = [0x01, 0x02, 0x3A] then
    (some .select, if beep then [⟨1000, 20⟩] else [])
  else if keycode = [0x01, 0x02, 0x3B] then
    (some .right, if beep then [⟨500, 10⟩] else [])
  else if keycode = [0x01, 0x02, 0x3C] then
    (some .left, if beep then [⟨500, 10⟩] else [])
  else
    (none, [])

/-- Modelled from the spec: the external Transport collaborator's device
handle (`hid.Device`).  The spec's data model gives it a terminal
closed state; nothing else about the handle is observable here. -/
structure Device where
  closed : Bool
  deriving DecidableEq, Repr

/-- Modelled from the spec: `close(handle)` on the Transport collaborator
releases the handle; closing an already-closed session is not an error
(spec section 7), so this is a total transition to the closed state. -/
def device_close (_ : Device) : Device :=
  { closed := true }

/-- Modelled from the spec: a Transport write on a handle.  A Device
Handle, once closed, is terminal and all further operations against it
fail explicitly (spec section 3 invariant). -/
def device_write (d : Device) (_ : List Nat) : Except Err Unit :=
  if d.closed then .error .connectionClosed else .ok ()

/-- Modelled from the spec: a Transport read on a handle, with `input`
standing for the bytes the device would deliver.  Fails explicitly on a
closed handle. -/
def device_read (d : Device) (input : List Nat) : Except Err (List Nat) :=
  if d.closed then .error .connectionClosed else .ok input

/-- A `CelestixLCD` session object: its `_device` attribute.  `none`
models an absent or falsy handle (the `if self._device:` guard in
`close`); every session produced by `open_session` carries `some`
handle, matching `__init__`. -/
structure Session where
  _device : Option Device
  deriving DecidableEq, Repr

/-- Embedding of `CelestixLCD.__init__`: enumerate matching devices,
raise `RuntimeError` if none, else open the first match. -/
def open_session (devices : List Unit) : Except Err Session :=
  match devices with
  | [] => .error .deviceNotFound
  | _ :: _ => .ok { _device := some { closed := false } }

/-- Embedding of `CelestixLCD.close`: `if self._device:
self._device.close()`.  The `_device` attribute itself is kept, exactly
as in the source. -/
def Session.close (s : Session) : Session :=
  match s._device with
  | some d => { _device := some (device_close d) }
  | none => s

/-- The session is in the closed state: it holds no open handle. -/
def Session.closedState (s : Session) : Bool :=
  match s._device with
  | some d => d.closed
  | none => true

/-- A transport write issued through the session's handle
(`self._device.write(...)`). -/
def Session.write_buf (s : Session) (data : List Nat) : Except Err Unit :=
  match s._device with
  | some d => device_write d data
  | none => .error .noDevice

/-- Embedding of `CelestixLCD.read`: transport read of the 6-byte report
then key decoding and optional beep dispatch. -/
def Session.read_op (s : Session) (input : List Nat) (beep : Bool) :
    Except Err (Option Key × List BeepCmd) :=
  match s._device with
  | none => .error .noDevice
  | some d =>
    match device_read d input with
    | .error e => .error e
    | .ok keycode => .ok (read_model keycode beep)

/-- Embedding of `CelestixLCD.readRaw`: transport read of a 63-byte
report, returned hex-encoded; the encoding itself is irrelevant to the
claims, so the raw bytes are returned. -/
def Session.read_raw_op (s : Session) (input : List Nat) :
    Except Err (List Nat) :=
  match s._device with
  | none => .error .noDevice
  | some d => device_read d input

/-- Embedding of `CelestixLCD.writeRaw`: writes caller bytes verbatim. -/
def Session.write_raw_op (s : Session) (data : List Nat) : Except Err Unit :=
  s.write_buf data

/-- Embedding of `CelestixLCD.clear`: build `clear_command`, write it. -/
def Session.clear_op (s : Session) : Except Err Unit :=
  s.write_buf clear_command

/-- Embedding of `CelestixLCD.write_line`: encode, then transport write. -/
def Session.write_line_op (s : Session) (string : List Nat) (line : Int) :
    Except Err Unit :=
  match write_line_enc string line with
  | .error e => .error e
  | .ok payload => s.write_buf payload

/-- Embedding of `CelestixLCD.write_string`: encode, then transport write. -/
def Session.write_string_op (s : Session) (string : List Nat)
    (line cursor : Int) : Except Err Unit :=
  match write_string_enc string line cursor with
  | .error e => .error e
  | .ok payload => s.write_buf payload

/-- Embedding of `CelestixLCD.create_char`: encode, then transport write. -/
def Session.create_char_op (s : Session) (location : Int)
    (bitmap : List (Fin 256)) : Except Err Unit :=
  match create_char_enc location bitmap with
  | .error e => .error e
  | .ok payload => s.write_buf payload

/-! Theorems for the claims. -/

/-- C7: `clear` always encodes the same fixed 8-byte buffer, `0x02 0x01`
followed by six zero bytes.  `clear_command` is a constant (and every
encoder in this development is a pure function), so encoding the same
logical operation twice yields byte-identical buffers. -/
theorem c7_clear_fixed_buffer :
    clear_command = [0x02, 0x01, 0, 0, 0, 0, 0, 0] ∧ clear_command.length = 8 := by
  decide

/-- C3 (amended): key decoding is by full-report equality, not suffix
matching: exactly `[0x01, 0x02, 0x3A]` decodes to select, exactly
`[0x01, 0x02, 0x3B]` to right, exactly `[0x01, 0x02, 0x3C]` to left,
and every other byte sequence decodes to no recognized key. -/
theorem c3_decode_exact_patterns (keycode : List Nat) :
    (decode_key keycode = some Key.select ↔ keycode = [0x01, 0x02, 0x3A]) ∧
    (decode_key keycode = some Key.right ↔ keycode = [0x01, 0x02, 0x3B]) ∧
    (decode_key keycode = some Key.left ↔ keycode = [0x01, 0x02, 0x3C]) ∧
    (keycode ≠ [0x01, 0x02, 0x3A] → keycode ≠ [0x01, 0x02, 0x3B] →
      keycode ≠ [0x01, 0x02, 0x3C] → decode_key keycode = none) := by
  unfold decode_key
  split_ifs <;> simp_all

/-- C3 witness: a concrete non-pattern report decodes to no key. -/
theorem c3_decode_exact_patterns_witness :
    decode_key [0x00, 0x00, 0x3A] = none :=
  (c3_decode_exact_patterns [0x00, 0x00, 0x3A]).2.2.2
    (by decide) (by decide) (by decide)

/-- C3 counterexample: the claim says any byte sequence ending in
`0x02 0x3A` decodes to select, but `[0x00] ++ [0x02, 0x3A]` ends in
`0x02 0x3A` and decodes to no key, because the code compares the whole
report against the literal `b'\x01\x02\x3A'`. -/
theorem c3_suffix_matching_counterexample :
    decode_key ([0x00] ++ [0x02, 0x3A]) ≠ some Key.select ∧
    decode_key ([0x00] ++ [0x02, 0x3A]) = none := by
  decide

/-- C4 (code bug): at an unrecognized report the source prints the bytes
and returns `None`, so the value returned to the caller carries no raw
bytes at all — two distinct unrecognized inputs yield identical
results, hence the caller cannot recover the input.  The claim states
the contract the spec declares as intended (`Unrecognized(raw)`), and
the spec's design notes flag exactly this divergence in the source. -/
theorem c4_unrecognized_bytes_dropped :
    read_model [0x00, 0x00, 0x00] false = (none, []) ∧
    read_model [0x00, 0x00, 0x00] false = read_model [0x07, 0x07, 0x07] false ∧
    read_model [0x00, 0x00, 0x00] true = read_model [0x07, 0x07, 0x07] true := by
  decide

/-- C10: the value returned by `read` is independent of the `beep` flag,
both for the pure decode-and-beep body (`read_model`) and through the
session operation; `beep` only influences the beep command list. -/
theorem c10_read_independent_of_beep :
    (∀ (keycode : List Nat) (b1 b2 : Bool),
      (read_model keycode b1).1 = (read_model keycode b2).1) ∧
    (∀ (s : Session) (input : List Nat) (b1 b2 : Bool),
      Except.map Prod.fst (s.read_op input b1) =
        Except.map Prod.fst (s.read_op input b2)) := by
  have hp : ∀ (keycode : List Nat) (b1 b2 : Bool),
      (read_model keycode b1).1 = (read_model keycode b2).1 := by
    intro keycode b1 b2
    unfold read_model
    split_ifs <;> rfl
  refine ⟨hp, ?_⟩
  intro s input b1 b2
  obtain ⟨od⟩ := s
  cases od with
  | none => rfl
  | some d =>
    cases d with
    | mk c =>
      cases c
      · simp [Session.read_op, device_read, Except.map, hp input b1 b2]
      · rfl

/-- C5: every out-of-range argument — `line` outside `{0,1}` for
`write_line` or `write_string`, `cursor` outside `[0,39]` for
`write_string`, `location` outside `[0,7]` or bitmap length outside
`[1,48]` for `create_char` — fails the `assert` precondition
(`invalidArgument`); no report buffer is produced and nothing is
clamped. -/
theorem c5_out_of_range_fails :
    (∀ (string : List Nat) (line : Int), ¬(0 ≤ line ∧ line ≤ 1) →
      write_line_enc string line = .error .invalidArgument) ∧
    (∀ (string : List Nat) (line cursor : Int),
      ¬(0 ≤ line ∧ line ≤ 1) ∨ ¬(0 ≤ cursor ∧ cursor ≤ 39) →
      write_string_enc string line cursor = .error .invalidArgument) ∧
    (∀ (location : Int) (bitmap : List (Fin 256)),
      ¬(0 ≤ location ∧ location ≤ 7) ∨
        ¬(1 ≤ bitmap.length ∧ bitmap.length ≤ 48) →
      create_char_enc location bitmap = .error .invalidArgument) := by
  refine ⟨?_, ?_, ?_⟩
  · intro string line h
    simp [write_line_enc, h]
  · intro string line cursor h
    rcases h with h | h <;> simp [write_string_enc, h]
  · intro location bitmap h
    rcases h with h | h <;> simp [create_char_enc, h]

/-- C5 witness: each operation rejects a concrete out-of-range input. -/
theorem c5_out_of_range_fails_witness :
    write_line_enc [] 2 = .error Err.invalidArgument ∧
    write_string_enc [] 0 40 = .error Err.invalidArgument ∧
    create_char_enc 8 [0] = .error Err.invalidArgument :=
  ⟨c5_out_of_range_fails.1 [] 2 (by decide),
   c5_out_of_range_fails.2.1 [] 0 40 (Or.inr (by decide)),
   c5_out_of_range_fails.2.2 8 [0] (Or.inl (by decide))⟩

/-- C1: for `line ∈ {0,1}`, `write_line` builds the header
`[0x02, 0x00, cursor=0, line, length=40, 0, 0, 0]` followed by the
first 40 code points Latin-1-encoded (`encodeChar` replaces code
points above 255 with the substitute byte) and space-padded to a
40-byte payload; the whole report is 48 bytes. -/
theorem c1_write_line_layout (string : List Nat) (line : Int)
    (h0 : 0 ≤ line) (h1 : line ≤ 1) :
    write_line_enc string line =
      .ok ([0x02, 0x00, 0x00, line.toNat, 40, 0x00, 0x00, 0x00]
            ++ encodeLatin1Replace (string.take 40)
            ++ List.replicate (40 - min 40 string.length) 0x20) ∧
    (encodeLatin1Replace (string.take 40)
        ++ List.replicate (40 - min 40 string.length) 0x20).length = 40 ∧
    ([0x02, 0x00, 0x00, line.toNat, 40, 0x00, 0x00, 0x00]
        ++ encodeLatin1Replace (string.take 40)
        ++ List.replicate (40 - min 40 string.length) 0x20).length = 48 := by
  have henc : (encodeLatin1Replace (string.take 40)).length =
      min 40 string.length := by
    simp [encodeLatin1Replace]
  refine ⟨?_, ?_, ?_⟩
  · simp [write_line_enc, lcd_report, cmd_text, h0, h1, henc, encodeLatin1Replace]
  · simp only [List.length_append, henc, List.length_replicate]
    omega
  · simp only [List.length_append, henc, List.length_replicate,
      List.length_cons, List.length_nil]
    omega

/-- C1 witness: the layout at the concrete input "Hi" on line 0. -/
theorem c1_write_line_layout_witness :
    write_line_enc [72, 105] 0 =
      .ok ([0x02, 0x00, 0x00, (0 : Int).toNat, 40, 0x00, 0x00, 0x00]
            ++ encodeLatin1Replace (([72, 105] : List Nat).take 40)
            ++ List.replicate (40 - min 40 ([72, 105] : List Nat).length) 0x20) :=
  (c1_write_line_layout [72, 105] 0 (by decide) (by decide)).1

/-- C2 (amended): for `line ∈ {0,1}` and `cursor ∈ [0,39]`,
`write_string` builds the header with the given cursor and line and a
length field equal to the length of the truncated text,
`min 40 (len text)` — not `len text` when the input exceeds 40 — and
the payload is exactly the truncated text, Latin-1 encoded, with no
trailing padding. -/
theorem c2_write_string_layout (string : List Nat) (line cursor : Int)
    (h0 : 0 ≤ line) (h1 : line ≤ 1) (h2 : 0 ≤ cursor) (h3 : cursor ≤ 39) :
    write_string_enc string line cursor =
      .ok ([0x02, 0x00, cursor.toNat, line.toNat, min 40 string.length,
            0x00, 0x00, 0x00]
            ++ encodeLatin1Replace (string.take 40)) := by
  simp [write_string_enc, lcd_report, cmd_text, h0, h1, h2, h3]

/-- C2 witness, the spec's scenario: `write_string("Hi", line=1,
cursor=5)` yields header cursor 5, line 1, length 2 and payload "Hi". -/
theorem c2_write_string_layout_witness :
    write_string_enc [72, 105] 1 5 =
      .ok ([0x02, 0x00, (5 : Int).toNat, (1 : Int).toNat,
            min 40 ([72, 105] : List Nat).length, 0x00, 0x00, 0x00]
            ++ encodeLatin1Replace (([72, 105] : List Nat).take 40)) :=
  c2_write_string_layout [72, 105] 1 5 (by decide) (by decide) (by decide)
    (by decide)

/-- C2 counterexample: for a 41-character text the length field (the
fifth byte) is 40, not `len(text) = 41`, so the claim as stated fails:
the code measures the text after truncation to 40 characters. -/
theorem c2_length_field_counterexample :
    (List.replicate 41 (120 : Nat)).length = 41 ∧
    write_string_enc (List.replicate 41 120) 0 0 =
      .ok ([0x02, 0x00, 0x00, 0x00, 40, 0x00, 0x00, 0x00]
            ++ List.replicate 40 120) ∧
    (40 : Nat) ≠ 41 := by
  decide

/-- C6: for `location ∈ [0,7]` and a bitmap of 1 to 48 rows,
`create_char` builds the header
`[0x02, 0x03, startpos = location*8, 0x00, length = len(bitmap), 0, 0, 0]`
followed by one byte per bitmap row, so the payload length equals the
bitmap length. -/
theorem c6_create_char_layout (location : Int) (bitmap : List (Fin 256))
    (h0 : 0 ≤ location) (h1 : location ≤ 7)
    (h2 : 1 ≤ bitmap.length) (h3 : bitmap.length ≤ 48) :
    create_char_enc location bitmap =
      .ok ([0x02, 0x03, location.toNat * 8, 0x00, bitmap.length,
            0x00, 0x00, 0x00]
            ++ bitmap.map Fin.val) ∧
    (bitmap.map Fin.val).length = bitmap.length := by
  refine ⟨?_, by simp⟩
  simp [create_char_enc, lcd_report, cmd_char, h0, h1, h2, h3]

/-- C6 witness: a one-row bitmap at location 3 gives startpos 24 and a
one-byte payload. -/
theorem c6_create_char_layout_witness :
    create_char_enc 3 [31] =
      .ok ([0x02, 0x03, (3 : Int).toNat * 8, 0x00,
            ([31] : List (Fin 256)).length, 0x00, 0x00, 0x00]
            ++ ([31] : List (Fin 256)).map Fin.val) :=
  (c6_create_char_layout 3 [31] (by decide) (by decide) (by decide)
    (by decide)).1

/-- Helper: after `close`, a transport write through the session is never
successful. -/
theorem write_buf_after_close (s : Session) (data : List Nat) :
    ((s.close).write_buf data).toBool = false := by
  obtain ⟨od⟩ := s
  cases od with
  | none => rfl
  | some d => rfl

/-- C8: `close` is idempotent — a second `close` is a no-op, the session
is in the closed state after each call, and `close` is total (it cannot
raise), including on a session holding no handle; a
never-successfully-opened session does not exist as a value, since
`open_session` fails before producing one. -/
theorem c8_close_idempotent (s : Session) :
    Session.close (Session.close s) = Session.close s ∧
    (Session.close s).closedState = true ∧
    (Session.close (Session.close s)).closedState = true ∧
    Session.close { _device := none } = ({ _device := none } : Session) := by
  obtain ⟨od⟩ := s
  cases od with
  | none => exact ⟨rfl, rfl, rfl, rfl⟩
  | some d => exact ⟨rfl, rfl, rfl, rfl⟩

/-- C9: once a session is closed, every operation — read, read_raw,
write_raw, clear, write_line, write_string, create_char — returns an
explicit error (`toBool = false` means the result is `Except.error _`),
never a success. -/
theorem c9_closed_session_rejects_ops (s : Session)
    (string input data : List Nat) (line cursor location : Int)
    (bitmap : List (Fin 256)) (beep : Bool) :
    ((s.close).read_op input beep).toBool = false ∧
    ((s.close).read_raw_op input).toBool = false ∧
    ((s.close).write_raw_op data).toBool = false ∧
    ((s.close).clear_op).toBool = false ∧
    ((s.close).write_line_op string line).toBool = false ∧
    ((s.close).write_string_op string line cursor).toBool = false ∧
    ((s.close).create_char_op location bitmap).toBool = false := by
  obtain ⟨od⟩ := s
  refine ⟨?_, ?_, write_buf_after_close ⟨od⟩ data,
    write_buf_after_close ⟨od⟩ clear_command, ?_, ?_, ?_⟩
  · cases od <;> rfl
  · cases od <;> rfl
  · cases h : write_line_enc string line with
    | error e => simp [Session.write_line_op, h, Except.toBool]
    | ok payload =>
      simp only [Session.write_line_op, h]
      exact write_buf_after_close ⟨od⟩ payload
  · cases h : write_string_enc string line cursor with
    | error e => simp [Session.write_string_op, h, Except.toBool]
    | ok payload =>
      simp only [Session.write_string_op, h]
      exact write_buf_after_close ⟨od⟩ payload
  · cases h : create_char_enc location bitmap with
    | error e => simp [Session.create_char_op, h, Except.toBool]
    | ok payload =>
      simp only [Session.create_char_op, h]
      exact write_buf_after_close ⟨od⟩ payload

end CelestixSpec
